import Mathlib

/-!
Verification of lxi-tools (heiko-jakob/lxi-tools): a shallow embedding of
src/options.c (command-line option parsing) and
src/rigol_1000z_screenshot.c (TMC block decoding in capture_screenshot),
with theorems settling the specification's claims about them.

Bytes are modelled as `Nat` (values 0..255), buffers as `List Nat`,
C `int` values as `Int`, and C strings as Lean `String`.
-/

/- ===================== TMC block decoder ===================== -/

/-- Models `atoi(&c)` at rigol_1000z_screenshot.c lines 63-64: the source
passes the address of a lone `char` holding `response[1]` (not a
null-terminated string, so C reads at most that one meaningful character);
modelled as atoi of that single character: the digit value when the byte is
an ASCII decimal digit, 0 otherwise. -/
def atoi1 (b : Nat) : Nat := if 48 ≤ b ∧ b ≤ 57 then b - 48 else 0

/-- Reads `len` bytes starting at offset `off` from the receive buffer.
The C buffer `char response[LXI_MESSAGE_LENGTH_MAX] = ""` is
zero-initialized beyond the received bytes, so out-of-range reads give 0
(hence `getD _ _ 0`); a negative `len` reads nothing (`Int.toNat`). -/
def readBytes (buf : List Nat) (off : Nat) (len : Int) : List Nat :=
  (List.range len.toNat).map (fun k => buf.getD (off + k) 0)

/-- The decoded result of the TMC-stripping step: the pointer advance
(`response_p - response`), the bytes that `file_dump` writes, and the
final `length` value. -/
structure Decoded where
  offset : Nat
  payload : List Nat
  len : Int
deriving DecidableEq, Repr

/-- Models rigol_1000z_screenshot.c lines 62-74 (the decode step of
`capture_screenshot`): `c = response[1]; n = atoi(&c);
response_p = &response[0] + n+2; length -= n+2;
response[length] = 0; length--;` and then `file_dump(response_p, length, _)`.
Note the source writes the 0 through `response` (the buffer start), not
`response_p`, at the already-reduced `length`. A negative store index is
undefined behaviour in C and modelled as a no-op. -/
def decodeTMC (response : List Nat) (length : Int) : Decoded :=
  let n := atoi1 (response.getD 1 0)
  let offset := n + 2
  let length1 : Int := length - ((n : Int) + 2)
  let response1 := if 0 ≤ length1 then response.set length1.toNat 0 else response
  let length2 := length1 - 1
  ⟨offset, readBytes response1 offset length2, length2⟩

/-- Models `capture_screenshot` (rigol_1000z_screenshot.c lines 48-79).
The transport collaborator's results (`lxi_connect`, `lxi_send`,
`lxi_receive` return values, the received buffer and its length) are taken
as inputs; exactly as in the source, the three status results are never
examined. Returns the function's return value (always 0) together with the
bytes handed to `file_dump`. -/
def captureScreenshot (connectRes sendRes recvRes : Int)
    (response : List Nat) (length : Int) : Int × List Nat :=
  let d := decodeTMC response length
  (0, d.payload)

/- ===================== getopt_long model ===================== -/

/-- One result of a `getopt_long` call: a recognized option character with
its `optarg` (`none` for `no_argument` options), or `err` for the `'?'`
unknown-option / missing-argument result (on which options.c exits). -/
inductive GEvent where
  | opt (c : Char) (arg : Option String)
  | err
deriving DecidableEq, Repr

/-- Short-option table lookup: `some takesArg` when the character is in the
optstring, `none` otherwise. -/
def shortLookup (tab : List (Char × Bool)) (c : Char) : Option Bool :=
  (tab.find? (fun p => p.1 = c)).map (fun p => p.2)

/-- Long-option table lookup by exact name, yielding
`(has_arg, val)` as in `struct option`. -/
def longLookup (tab : List (String × Bool × Char)) (name : String) :
    Option (Bool × Char) :=
  (tab.find? (fun p => p.1 = name)).map (fun p => p.2)

/-- Splits a character list at the first `=` (as glibc does with strchr
on a long-option body): `ip=1.2.3.4` ↦ name `ip`, value `1.2.3.4`. -/
def splitEq : List Char → List Char × Option (List Char)
  | [] => ([], none)
  | '=' :: rest => ([], some rest)
  | c :: rest =>
    let r := splitEq rest
    (c :: r.1, r.2)

/-- Splits a long-option token body at the first `=`
(`ip=1.2.3.4` ↦ `("ip", some "1.2.3.4")`). -/
def splitLongTok (s : String) : String × Option String :=
  let r := splitEq s.toList
  (String.mk r.1, r.2.map String.mk)

/-- Whether a token begins with the given prefix (used for the `-` and
`--` tests on argv tokens). -/
def leadsWith : List Char → List Char → Bool
  | [], _ => true
  | _ :: _, [] => false
  | p :: ps, c :: cs => p = c && leadsWith ps cs

/-- Models `strncpy` with bound `n` into a fresh field: keeps at most the first
`n` characters (options.c copies with `strncpy(…, optarg, 500)`). -/
def strncpyN (s : String) (n : Nat) : String := String.mk (s.toList.take n)

/-- Models the sequence of `getopt_long` calls a parse loop of options.c
performs, returning the emitted events and the non-option (positional)
arguments in order. GNU `getopt_long` permutes non-options to the end of
`argv`, so after the loop `optind` points at the first of them; `--` stops
option scanning; a lone `-` is a non-option; short options may be
clustered and may carry their argument attached or as the next token.
`sFirst` is the optstring of the loop's first call and `sRest` the
optstring of every later call — options.c's scpi loop really passes
different strings there (lines 143 and 178). On `'?'` the source exits
immediately, so scanning stops at an `err` event. Unmodelled glibc
frills: long-option prefix abbreviation and error text. -/
def goRunF (sFirst sRest : List (Char × Bool)) (table : List (String × Bool × Char)) :
    Nat → Bool → List Char → List String → List GEvent × List String
  | 0, _, _, _ => ([], [])
  | Nat.succ fuel, isFirst, cluster, tokens =>
    match cluster, tokens with
    | [], [] => ([], [])
    | [], tok :: toks =>
      if tok = "--" then ([], toks)
      else if leadsWith ['-', '-'] tok.toList then
        match longLookup table (splitLongTok (String.mk (tok.toList.drop 2))).1 with
        | none => ([GEvent.err], [])
        | some (takesArg, c) =>
          if takesArg then
            match (splitLongTok (String.mk (tok.toList.drop 2))).2 with
            | some v =>
              let r := goRunF sFirst sRest table fuel false [] toks
              (GEvent.opt c (some v) :: r.1, r.2)
            | none =>
              match toks with
              | [] => ([GEvent.err], [])
              | t :: ts =>
                let r := goRunF sFirst sRest table fuel false [] ts
                (GEvent.opt c (some t) :: r.1, r.2)
          else
            match (splitLongTok (String.mk (tok.toList.drop 2))).2 with
            | some _ => ([GEvent.err], [])
            | none =>
              let r := goRunF sFirst sRest table fuel false [] toks
              (GEvent.opt c none :: r.1, r.2)
      else if leadsWith ['-'] tok.toList && tok != "-" then
        goRunF sFirst sRest table fuel isFirst (tok.toList.drop 1) toks
      else
        let r := goRunF sFirst sRest table fuel isFirst [] toks
        (r.1, tok :: r.2)
    | ch :: cl, toks =>
      match shortLookup (if isFirst then sFirst else sRest) ch with
      | none => ([GEvent.err], [])
      | some true =>
        match cl with
        | [] =>
          match toks with
          | [] => ([GEvent.err], [])
          | t :: ts =>
            let r := goRunF sFirst sRest table fuel false [] ts
            (GEvent.opt ch (some t) :: r.1, r.2)
        | _ =>
          let r := goRunF sFirst sRest table fuel false [] toks
          (GEvent.opt ch (some (String.mk cl)) :: r.1, r.2)
      | some false =>
        let r := goRunF sFirst sRest table fuel false cl toks
        (GEvent.opt ch none :: r.1, r.2)

/-- Enough fuel to drive `goRunF` to completion: every step strictly
decreases the pending cluster length plus the total size of the remaining
tokens, so this bound is never exhausted on the initial state. -/
def goFuel (cluster : List Char) (tokens : List String) : Nat :=
  cluster.length + (tokens.map (fun t => t.length + 1)).sum + 1

/-- The getopt loop entry point (see `goRunF` for the semantics). -/
def goRun (sFirst sRest : List (Char × Bool)) (table : List (String × Bool × Char))
    (isFirst : Bool) (cluster : List Char) (tokens : List String) :
    List GEvent × List String :=
  goRunF sFirst sRest table (goFuel cluster tokens) isFirst cluster tokens

/- ===================== options.c ===================== -/

/-- The `command_t` values used by options.c (`SCPI`, `DISCOVER`). -/
inductive CommandT where
  | SCPI
  | DISCOVER
deriving DecidableEq, Repr

/-- Models `struct option_t` with the fields options.c populates, in the order of
the initializer at options.c lines 42-53. -/
structure option_t where
  command : CommandT
  timeout : Int
  ip : String
  scpi_command : String
  dump_hex : Bool
  dump_file : Bool
  filename : String
  interactive : Bool
  run_script : Bool
deriving DecidableEq, Repr

/-- The global `option` initializer, options.c lines 42-53: default command
SCPI, timeout 1, empty IP, default SCPI command `"*IDN?"`, all flags off,
empty filename. -/
def option_default : option_t :=
  ⟨CommandT.SCPI, 1, "", "*IDN?", false, false, "", false, false⟩

/-- Models C `atoi`: skip leading whitespace, optional sign, then the
longest prefix of decimal digits (0 when there are none). -/
def atoiLoop : List Char → Int → Int
  | [], acc => acc
  | c :: cs, acc =>
    if c.isDigit then atoiLoop cs (acc * 10 + ((c.toNat : Int) - 48)) else acc

/-- C `atoi` on a full string (used for the timeout flag's argument). -/
def atoi (s : String) : Int :=
  match s.toList.dropWhile (fun c => c.isWhitespace) with
  | '-' :: rest => - atoiLoop rest 0
  | '+' :: rest => atoiLoop rest 0
  | cs => atoiLoop cs 0

/-- The `switch (c)` body of the scpi parse loop, options.c lines 147-177:
`t` sets timeout via atoi, `i` copies the IP (strncpy with bound 500),
`x` sets dump_hex, `f` sets dump_file and stores optarg in the shared
filename field, `a` sets interactive, `r` sets run_script and stores
optarg in the same filename field; any other character falls through the
switch unchanged. -/
def scpiApply (o : option_t) (c : Char) (a : Option String) : option_t :=
  if c = 't' then { o with timeout := atoi (a.getD "") }
  else if c = 'i' then { o with ip := strncpyN (a.getD "") 500 }
  else if c = 'x' then { o with dump_hex := true }
  else if c = 'f' then { o with dump_file := true, filename := a.getD "" }
  else if c = 'a' then { o with interactive := true }
  else if c = 'r' then { o with run_script := true, filename := a.getD "" }
  else o

/-- The scpi parse loop folded over the getopt events; the `'?'` case
(`err`) is `exit(EXIT_FAILURE)`, modelled as `Except.error`. -/
def scpiFold (o : option_t) : List GEvent → Except Unit option_t
  | [] => Except.ok o
  | GEvent.err :: _ => Except.error ()
  | GEvent.opt c a :: rest => scpiFold (scpiApply o c a) rest

/-- The discover loop's switch, options.c lines 116-123: only `t`. -/
def discoverApply (o : option_t) (c : Char) (a : Option String) : option_t :=
  if c = 't' then { o with timeout := atoi (a.getD "") } else o

/-- The discover parse loop folded over the getopt events. -/
def discoverFold (o : option_t) : List GEvent → Except Unit option_t
  | [] => Except.ok o
  | GEvent.err :: _ => Except.error ()
  | GEvent.opt c a :: rest => discoverFold (discoverApply o c a) rest

/-- Outcomes of `parse_options`: the success exits (help/version), the
three failure exits (unknown option `'?'`, missing IP with an inline
command, trailing unknown arguments), or a populated configuration. -/
inductive PRes where
  | helpExit
  | versionExit
  | optFailure
  | noIpFailure
  | unknownArgsFailure
  | ok (o : option_t)
deriving DecidableEq, Repr

/-- The fallback (no recognized command) loop, options.c lines 195-211:
`v` exits success after printing the version, `h` after printing help,
`'?'` exits failure; otherwise parsing continues to the common tail. -/
def globalFoldR : List GEvent → Option PRes
  | [] => none
  | GEvent.err :: _ => some PRes.optFailure
  | GEvent.opt c _ :: rest =>
    if c = 'v' then some PRes.versionExit
    else if c = 'h' then some PRes.helpExit
    else globalFoldR rest

/-- The common tail of `parse_options`, options.c lines 214-232: when the
command is SCPI and a positional remains, it is copied (strncpy, bound
500) into `scpi_command` and an empty IP is the "no IP address" failure;
any positional still left after that (or any positional at all for other
commands) is the "unknown arguments" failure. -/
def tailCheck (o : option_t) (ps : List String) : PRes :=
  match ps with
  | [] => PRes.ok o
  | p :: rest =>
    if o.command = CommandT.SCPI then
      let o1 := { o with scpi_command := strncpyN p 500 }
      if o1.ip = "" then PRes.noIpFailure
      else if rest = [] then PRes.ok o1
      else PRes.unknownArgsFailure
    else PRes.unknownArgsFailure

/-- The optstring of the scpi loop's first `getopt_long` call,
options.c line 143: `"i:t:xf:ar:"`. -/
def scpiShortFirst : List (Char × Bool) :=
  [('i', true), ('t', true), ('x', false), ('f', true), ('a', false), ('r', true)]

/-- The optstring of every later scpi-loop call, options.c line 178:
`"t:"` (not the full scpi optstring). -/
def scpiShortRest : List (Char × Bool) := [('t', true)]

/-- The scpi `long_options` table, options.c lines 131-140. -/
def scpiLongTable : List (String × Bool × Char) :=
  [("timeout", true, 't'), ("ip", true, 'i'), ("dump-hex", false, 'x'),
   ("dump-file", true, 'f'), ("interactive", false, 'a'), ("run-script", true, 'r')]

/-- The discover optstring `"t:"`, options.c lines 112 and 124. -/
def discoverShort : List (Char × Bool) := [('t', true)]

/-- The discover `long_options` table, options.c lines 105-109. -/
def discoverLongTable : List (String × Bool × Char) := [("timeout", true, 't')]

/-- The fallback optstring `"vh"`, options.c lines 193 and 210. -/
def globalShort : List (Char × Bool) := [('v', false), ('h', false)]

/-- The fallback `long_options` table, options.c lines 185-190. -/
def globalLongTable : List (String × Bool × Char) :=
  [("version", false, 'v'), ("help", false, 'h')]

/-- The full sequence of scpi-loop getopt calls on the arguments after
`scpi` (`optind = 2`). -/
def getoptScpiEvents (args : List String) : List GEvent × List String :=
  goRun scpiShortFirst scpiShortRest scpiLongTable true [] args

/-- The discover-loop getopt calls on the arguments after `discover`. -/
def getoptDiscoverEvents (args : List String) : List GEvent × List String :=
  goRun discoverShort discoverShort discoverLongTable true [] args

/-- The fallback-loop getopt calls; `optind` is restored to 1
(options.c line 183), so the unrecognized first argument is scanned too. -/
def getoptGlobalEvents (args : List String) : List GEvent × List String :=
  goRun globalShort globalShort globalLongTable true [] args

/-- The option state at the start of the scpi branch:
`option.command = SCPI` on the defaults (options.c line 129). -/
def scpiInit : option_t := { option_default with command := CommandT.SCPI }

/-- The option state at the start of the discover branch
(options.c line 103). -/
def discoverInit : option_t := { option_default with command := CommandT.DISCOVER }

/-- The scpi branch of `parse_options`, options.c lines 127-179 plus the
common tail. -/
def scpiBranch (rest : List String) : PRes :=
  let r := getoptScpiEvents rest
  match scpiFold scpiInit r.1 with
  | Except.error _ => PRes.optFailure
  | Except.ok o => tailCheck o r.2

/-- The discover branch of `parse_options`, options.c lines 101-126 plus
the common tail. -/
def discoverBranch (rest : List String) : PRes :=
  let r := getoptDiscoverEvents rest
  match discoverFold discoverInit r.1 with
  | Except.error _ => PRes.optFailure
  | Except.ok o => tailCheck o r.2

/-- The fallback branch of `parse_options`, options.c lines 180-212 plus
the common tail (note: `option.command` keeps its default SCPI there). -/
def globalBranch (args : List String) : PRes :=
  let r := getoptGlobalEvents args
  match globalFoldR r.1 with
  | some res => res
  | none => tailCheck option_default r.2

/-- Models `parse_options` (options.c lines 84-233) on the argument list
after the program name: no arguments is the help exit (`argc == 1`,
lines 89-93); a leading `discover` or `scpi` selects that branch with
parsing starting after it (`optind = 2`); any other first argument falls
back to the global version-and-help parse over the whole list. -/
def parse_options (args : List String) : PRes :=
  match args with
  | [] => PRes.helpExit
  | cmd :: rest =>
    if cmd = "discover" then discoverBranch rest
    else if cmd = "scpi" then scpiBranch rest
    else globalBranch (cmd :: rest)

/-- The raw response buffer of the spec's worked example, `"#15HELLO\n"`:
`#` `1` `5` `H` `E` `L` `L` `O` `\n`. -/
def hello9 : List Nat := [35, 49, 53, 72, 69, 76, 76, 79, 10]

/-- Like `hello9` but with the length-digit byte (index 2) changed from
`5` to `9`; decoding never reads that byte. -/
def hello9b : List Nat := [35, 49, 57, 72, 69, 76, 76, 79, 10]

/-- An event is neither the unknown-option result nor an IP option:
the scpi loop leaves `option.ip` at its default on such events. -/
def evOkNoIp : GEvent → Bool
  | GEvent.opt c _ => c != 'i'
  | GEvent.err => false

/-- The optarg of a dump-file or run-script event (both store into the
same `option.filename` field, options.c lines 163 and 172), `none` for
every other event. -/
def frArg : GEvent → Option String
  | GEvent.opt c a => if c = 'f' ∨ c = 'r' then some (a.getD "") else none
  | GEvent.err => none

/-- The configuration produced by `scpi --interactive`: defaults with
`interactive` set, `scpi_command` still the default `"*IDN?"`. -/
def c10cfg : option_t :=
  ⟨CommandT.SCPI, 1, "", "*IDN?", false, false, "", true, false⟩

/-- A getopt event sequence that supplies both dump-file and run-script. -/
def c9evs : List GEvent :=
  [GEvent.opt 'f' (some "resp.bin"), GEvent.opt 'r' (some "run.lxi")]

/-- The option state after folding `c9evs`: both booleans set, the shared
filename field holding only the later path. -/
def c9cfg : option_t :=
  ⟨CommandT.SCPI, 1, "", "*IDN?", false, true, "run.lxi", false, true⟩

/- ===================== Theorems ===================== -/

/-- Evaluates `List.getD` through `List.set`, spelled out as a single conditional. -/
lemma getD_set_cases (l : List Nat) (j i v : Nat) :
    (l.set j v).getD i 0 = if j = i ∧ j < l.length then v else l.getD i 0 := by
  by_cases hji : j = i
  · subst hji
    by_cases hlen : j < l.length
    · simp [hlen, List.getD_eq_getD_get?, List.get?_eq_getElem?, List.getElem?_set]
    · have h1 : (l.set j v).getD j 0 = 0 :=
        List.getD_eq_default _ _ (by rw [List.length_set]; exact Nat.le_of_not_lt hlen)
      have h2 : l.getD j 0 = 0 := List.getD_eq_default _ _ (Nat.le_of_not_lt hlen)
      rw [if_neg (by simp [hlen]), h1, h2]
  · simp [hji, List.getD_eq_getD_get?, List.get?_eq_getElem?, List.getElem?_set]

/-- The scpi switch never changes the selected command. -/
lemma scpiApply_command (o : option_t) (c : Char) (a : Option String) :
    (scpiApply o c a).command = o.command := by
  unfold scpiApply
  split_ifs <;> rfl

/-- The scpi switch never touches `scpi_command` (only the tail of
`parse_options` writes it). -/
lemma scpiApply_scpi_command (o : option_t) (c : Char) (a : Option String) :
    (scpiApply o c a).scpi_command = o.scpi_command := by
  unfold scpiApply
  split_ifs <;> rfl

/-- Only the IP option writes `option.ip`. -/
lemma scpiApply_ip_of_ne (o : option_t) (c : Char) (a : Option String)
    (h : c ≠ 'i') : (scpiApply o c a).ip = o.ip := by
  unfold scpiApply
  split_ifs <;> first | rfl | simp_all

/-- Folding a list of events that are all neither `err` nor IP options
succeeds and leaves `ip` and `command` unchanged. -/
lemma scpiFold_all_ok (evs : List GEvent) : ∀ o : option_t,
    evs.all evOkNoIp = true →
    ∃ o', scpiFold o evs = Except.ok o' ∧ o'.ip = o.ip ∧ o'.command = o.command := by
  induction evs with
  | nil => exact fun o _ => ⟨o, rfl, rfl, rfl⟩
  | cons e rest ih =>
    intro o h
    simp only [List.all_cons, Bool.and_eq_true] at h
    cases e with
    | err => simp [evOkNoIp] at h
    | opt c a =>
      have hc : c ≠ 'i' := by simpa [evOkNoIp] using h.1
      obtain ⟨o', hfold, hip, hcmd⟩ := ih (scpiApply o c a) h.2
      exact ⟨o', hfold, by rw [hip, scpiApply_ip_of_ne o c a hc],
        by rw [hcmd, scpiApply_command]⟩

/-- Reduces the scpi branch once the getopt events are known. -/
lemma scpiBranch_eq (args : List String) (evs : List GEvent) (ps : List String)
    (h : getoptScpiEvents args = (evs, ps)) :
    scpiBranch args =
      match scpiFold scpiInit evs with
      | Except.error _ => PRes.optFailure
      | Except.ok o => tailCheck o ps := by
  unfold scpiBranch
  rw [h]

/-- Running `parse_options` with leading `scpi` is the scpi branch. -/
lemma parse_options_scpi (args : List String) :
    parse_options ("scpi" :: args) = scpiBranch args := rfl

/-- C1: for a valid TMC buffer (`#`, one digit-count digit n, n length
digits, payload, one terminator) the decode step is claimed to return
exactly the payload bytes with length `total - (n+2) - 1`. On the valid
buffer `"#15HELLO\n"` (n = 1) the length comes out right, but the payload
does not: the null write `response[length] = 0` at line 70 lands at buffer
index `9 - (1+2) = 6` — the second `L` of the payload — instead of on the
terminator, so the dumped bytes are `H E L \0 O`, not `H E L L O`. -/
theorem decode_corrupts_payload_byte :
    (decodeTMC hello9 9).len = 9 - (1 + 2) - 1 ∧
    (decodeTMC hello9 9).payload = [72, 69, 76, 0, 79] ∧
    (decodeTMC hello9 9).payload ≠ [72, 69, 76, 76, 79] := by
  decide

/-- C2: the spec's worked example: decoding the 9-byte buffer
`"#15HELLO\n"` is claimed to yield payload `HELLO` with length 5. The
length is 5 and the offset is 3, but the produced bytes are
`72 69 76 0 79` (`H E L \0 O`), not `72 69 76 76 79` (`HELLO`): line 70
zeroes buffer index 6 (the second `L`) instead of the terminator. -/
theorem decode_hello_example_mismatch :
    decodeTMC hello9 9 = ⟨3, [72, 69, 76, 0, 79], 5⟩ ∧
    ([72, 69, 76, 0, 79] : List Nat) ≠ [72, 69, 76, 76, 79] := by
  decide

/-- C3: the claim says a transport connect/send/receive failure is
reported and the process exits non-zero. In the source the return values
of `lxi_connect`, `lxi_send` and `lxi_receive` are never examined and
`capture_screenshot` returns 0 unconditionally (line 78), which `main`
returns as the exit status: whatever the transport reports — including
any error results — the run reports success. -/
theorem capture_always_reports_success (connectRes sendRes recvRes : Int)
    (response : List Nat) (length : Int) :
    (captureScreenshot connectRes sendRes recvRes response length).1 = 0 := rfl

/-- C4: the claim says all six scpi flags are recognized wherever they
appear. But the loop's repeat call (options.c line 178) passes optstring
`"t:"` instead of `"i:t:xf:ar:"`, so a short flag other than `-t` that
appears after the first flag is treated as unrecognized and the process
exits with failure: here `-i` after `-x`. -/
theorem scpi_short_flag_after_first_is_rejected :
    parse_options ["scpi", "-x", "-i", "192.0.2.5"] = PRes.optFailure := by
  decide

/-- C6: `scpi -i 192.0.2.5 -t 2 "*IDN?"` resolves to command SCPI,
ip `192.0.2.5`, timeout 2 and scpi_command `*IDN?` (this invocation
survives the optstring slip because the only flag after the first one is
`-t`, which `"t:"` does recognize). -/
theorem scpi_example_invocation :
    parse_options ["scpi", "-i", "192.0.2.5", "-t", "2", "*IDN?"] =
      PRes.ok ⟨CommandT.SCPI, 2, "192.0.2.5", "*IDN?", false, false, "", false, false⟩ := by
  decide

/-- C7 counterexample: the claim says re-decoding an already-stripped
payload (which no longer starts with `#`) is rejected as a malformed
response. The decode step has no failure path at all: on the stripped
(non-`#`-framed) output of decoding `"#15HELLO\n"` it silently produces
another, garbage result (atoi of the non-digit byte `E` gives n = 0). -/
theorem redecode_not_rejected :
    (decodeTMC hello9 9).payload.getD 0 0 ≠ 35 ∧
    decodeTMC (decodeTMC hello9 9).payload (decodeTMC hello9 9).len =
      ⟨2, [76, 0], 2⟩ := by
  decide

/-- C7 amended: the decoder performs no validation; applying it to its own
already-stripped output (first byte not `#`) silently yields a further
garbage result instead of any malformed-response rejection. -/
theorem redecode_silently_accepts :
    decodeTMC [72, 69, 76, 0, 79] 5 = ⟨2, [76, 0], 2⟩ ∧
    ([72, 69, 76, 0, 79] : List Nat).getD 0 0 ≠ 35 := by
  decide

/-- C5: a well-formed scpi invocation (all getopt calls succeed) that
leaves a positional argument (the inline SCPI command) and never supplies
the IP option fails with the "no IP address" diagnostic: the scpi loop
leaves `option.ip` at its default empty string, and the tail of
`parse_options` (lines 214-221) copies the positional into `scpi_command`
and then exits with the error before anything else can run — the whole of
`parse_options` performs no network operation. -/
theorem scpi_inline_command_without_ip_fails
    (args : List String) (evs : List GEvent) (p : String) (rest : List String)
    (hev : getoptScpiEvents args = (evs, p :: rest))
    (hall : evs.all evOkNoIp = true) :
    parse_options ("scpi" :: args) = PRes.noIpFailure := by
  obtain ⟨o', hok, hip, hcmd⟩ := scpiFold_all_ok evs scpiInit hall
  rw [parse_options_scpi, scpiBranch_eq args evs (p :: rest) hev, hok]
  show tailCheck o' (p :: rest) = PRes.noIpFailure
  unfold tailCheck
  show (if o'.command = CommandT.SCPI then _ else _) = PRes.noIpFailure
  rw [if_pos (by rw [hcmd]; rfl)]
  show (if ({ o' with scpi_command := strncpyN p 500 }).ip = "" then _ else _) =
    PRes.noIpFailure
  rw [if_pos (by show o'.ip = ""; rw [hip]; rfl)]

/-- C5 witness: `scpi -a CMD` supplies a positional and no IP option, and
indeed fails with the missing-IP diagnostic. -/
theorem scpi_inline_command_without_ip_fails_witness :
    parse_options ("scpi" :: ["-a", "CMD"]) = PRes.noIpFailure :=
  scpi_inline_command_without_ip_fails ["-a", "CMD"] [GEvent.opt 'a' none]
    "CMD" [] rfl rfl

/-- C8: the decode step never reads the declared length digits. For any
two equally long raw buffers that agree everywhere except possibly at
indices 2 … n+1 (the length-digit positions, where n is the digit-count
byte at index 1), the decode results — offset, payload bytes and length —
are identical: the source only reads `response[1]` and the total length. -/
theorem decode_ignores_length_digit_bytes (b1 b2 : List Nat)
    (hlen : b1.length = b2.length)
    (hagree : ∀ i : Nat, i < 2 ∨ atoi1 (b1.getD 1 0) + 1 < i →
      b1.getD i 0 = b2.getD i 0) :
    decodeTMC b1 (b1.length : Int) = decodeTMC b2 (b2.length : Int) := by
  have h1 : b1.getD 1 0 = b2.getD 1 0 := hagree 1 (Or.inl (by omega))
  have hn : atoi1 (b2.getD 1 0) = atoi1 (b1.getD 1 0) := by rw [h1]
  simp only [decodeTMC, hn, ← hlen]
  simp only [Decoded.mk.injEq, eq_self_iff_true, true_and, and_true]
  unfold readBytes
  apply List.map_congr_left
  intro k hk
  set n := atoi1 (b1.getD 1 0) with hndef
  by_cases hpos : (0 : Int) ≤ (b1.length : Int) - ((n : Int) + 2)
  · rw [if_pos hpos, if_pos hpos, getD_set_cases, getD_set_cases, hlen]
    split_ifs with hcond
    · rfl
    · exact hagree _ (Or.inr (by omega))
  · rw [if_neg hpos, if_neg hpos]
    exact hagree _ (Or.inr (by omega))

/-- C8 witness: changing the length-digit byte from `5` to `9` in the
worked example leaves the decode result unchanged. -/
theorem decode_ignores_length_digit_bytes_witness :
    decodeTMC hello9 (hello9.length : Int) = decodeTMC hello9b (hello9b.length : Int) := by
  apply decode_ignores_length_digit_bytes
  · decide
  · intro i hi
    rcases Nat.lt_or_ge i 9 with h9 | h9
    · interval_cases i <;> first | rfl | exact absurd hi (by decide)
    · rw [List.getD_eq_default _ _ (show hello9.length ≤ i by
          simp only [hello9, List.length_cons, List.length_nil]; omega),
        List.getD_eq_default _ _ (show hello9b.length ≤ i by
          simp only [hello9b, List.length_cons, List.length_nil]; omega)]

/-- The scpi switch never clears `dump_file`. -/
lemma scpiApply_dump_file_mono (o : option_t) (c : Char) (a : Option String)
    (h : o.dump_file = true) : (scpiApply o c a).dump_file = true := by
  unfold scpiApply
  split_ifs <;> first | exact h | rfl

/-- The scpi switch never clears `run_script`. -/
lemma scpiApply_run_script_mono (o : option_t) (c : Char) (a : Option String)
    (h : o.run_script = true) : (scpiApply o c a).run_script = true := by
  unfold scpiApply
  split_ifs <;> first | exact h | rfl

/-- Once `dump_file` is set, the rest of the scpi loop keeps it set. -/
lemma scpiFold_dump_file_mono (evs : List GEvent) : ∀ o o' : option_t,
    scpiFold o evs = Except.ok o' → o.dump_file = true → o'.dump_file = true := by
  induction evs with
  | nil =>
    intro o o' h hd
    simp only [scpiFold, Except.ok.injEq] at h
    rwa [← h]
  | cons e rest ih =>
    intro o o' h hd
    cases e with
    | err => simp [scpiFold] at h
    | opt c a => exact ih _ _ h (scpiApply_dump_file_mono o c a hd)

/-- Once `run_script` is set, the rest of the scpi loop keeps it set. -/
lemma scpiFold_run_script_mono (evs : List GEvent) : ∀ o o' : option_t,
    scpiFold o evs = Except.ok o' → o.run_script = true → o'.run_script = true := by
  induction evs with
  | nil =>
    intro o o' h hd
    simp only [scpiFold, Except.ok.injEq] at h
    rwa [← h]
  | cons e rest ih =>
    intro o o' h hd
    cases e with
    | err => simp [scpiFold] at h
    | opt c a => exact ih _ _ h (scpiApply_run_script_mono o c a hd)

/-- A dump-file event anywhere in a successful scpi loop leaves
`dump_file` set in the result. -/
lemma scpiFold_sets_dump_file (evs : List GEvent) : ∀ (o o' : option_t)
    (s : Option String), GEvent.opt 'f' s ∈ evs →
    scpiFold o evs = Except.ok o' → o'.dump_file = true := by
  induction evs with
  | nil => intro o o' s hm; exact absurd hm (List.not_mem_nil _)
  | cons e rest ih =>
    intro o o' s hm h
    cases e with
    | err => simp [scpiFold] at h
    | opt c a =>
      rcases List.mem_cons.mp hm with he | hm'
      · have hc : c = 'f' := by injection he with h1 h2; exact h1.symm
        subst hc
        exact scpiFold_dump_file_mono rest _ _ h (by rfl)
      · exact ih _ _ s hm' h

/-- A run-script event anywhere in a successful scpi loop leaves
`run_script` set in the result. -/
lemma scpiFold_sets_run_script (evs : List GEvent) : ∀ (o o' : option_t)
    (s : Option String), GEvent.opt 'r' s ∈ evs →
    scpiFold o evs = Except.ok o' → o'.run_script = true := by
  induction evs with
  | nil => intro o o' s hm; exact absurd hm (List.not_mem_nil _)
  | cons e rest ih =>
    intro o o' s hm h
    cases e with
    | err => simp [scpiFold] at h
    | opt c a =>
      rcases List.mem_cons.mp hm with he | hm'
      · have hc : c = 'r' := by injection he with h1 h2; exact h1.symm
        subst hc
        exact scpiFold_run_script_mono rest _ _ h (by rfl)
      · exact ih _ _ s hm' h

/-- When the event is a dump-file or run-script option, the switch stores
its optarg in the shared filename field. -/
lemma scpiApply_filename_fr (o : option_t) (c : Char) (a : Option String)
    (h : c = 'f' ∨ c = 'r') : (scpiApply o c a).filename = a.getD "" := by
  rcases h with h | h
  · subst h; rfl
  · subst h; rfl

/-- Every other event leaves the filename field alone. -/
lemma scpiApply_filename_not_fr (o : option_t) (c : Char) (a : Option String)
    (h : ¬(c = 'f' ∨ c = 'r')) : (scpiApply o c a).filename = o.filename := by
  unfold scpiApply
  split_ifs <;> first | rfl | simp_all

/-- After a successful scpi loop the shared filename field holds the
optarg of the last dump-file or run-script option (or the initial value
when neither occurred). -/
lemma scpiFold_filename (evs : List GEvent) : ∀ o o' : option_t,
    scpiFold o evs = Except.ok o' →
    o'.filename = (evs.filterMap frArg).getLastD o.filename := by
  induction evs with
  | nil =>
    intro o o' h
    simp only [scpiFold, Except.ok.injEq] at h
    simp [← h, List.getLastD]
  | cons e rest ih =>
    intro o o' h
    cases e with
    | err => simp [scpiFold] at h
    | opt c a =>
      have h' : scpiFold (scpiApply o c a) rest = Except.ok o' := h
      by_cases hfr : c = 'f' ∨ c = 'r'
      · rw [ih _ _ h', scpiApply_filename_fr o c a hfr]
        have hfm : (GEvent.opt c a :: rest).filterMap frArg =
            (a.getD "") :: rest.filterMap frArg := by
          simp [List.filterMap_cons, frArg, hfr]
        rw [hfm, List.getLastD_cons]
      · rw [ih _ _ h', scpiApply_filename_not_fr o c a hfr]
        have hfm : (GEvent.opt c a :: rest).filterMap frArg =
            rest.filterMap frArg := by
          simp [List.filterMap_cons, frArg, hfr]
        rw [hfm]

/-- C9: an scpi invocation whose getopt events include both a dump-file
option (optarg `pf`) and a run-script option (optarg `pr`) ends the loop
with both booleans set but only one path stored: the single shared
`filename` field holds the optarg of whichever of the two options came
last in command-line order (events are emitted left-to-right), silently
overwriting the earlier one (options.c lines 161-173). -/
theorem scpi_dump_and_script_share_filename
    (evs : List GEvent) (o' : option_t) (pf pr : String)
    (hf : GEvent.opt 'f' (some pf) ∈ evs)
    (hr : GEvent.opt 'r' (some pr) ∈ evs)
    (hok : scpiFold scpiInit evs = Except.ok o') :
    o'.dump_file = true ∧ o'.run_script = true ∧
      o'.filename = (evs.filterMap frArg).getLastD scpiInit.filename :=
  ⟨scpiFold_sets_dump_file evs scpiInit o' (some pf) hf hok,
   scpiFold_sets_run_script evs scpiInit o' (some pr) hr hok,
   scpiFold_filename evs scpiInit o' hok⟩

/-- C9 witness: dump-file `resp.bin` followed by run-script `run.lxi`
leaves both booleans set and only `run.lxi` in the shared field. -/
theorem scpi_dump_and_script_share_filename_witness :
    c9cfg.dump_file = true ∧ c9cfg.run_script = true ∧
      c9cfg.filename = (c9evs.filterMap frArg).getLastD scpiInit.filename :=
  scpi_dump_and_script_share_filename c9evs c9cfg "resp.bin" "run.lxi"
    (by decide) (by decide) rfl

/-- The scpi loop never writes `scpi_command`. -/
lemma scpiFold_scpi_command (evs : List GEvent) : ∀ o o' : option_t,
    scpiFold o evs = Except.ok o' → o'.scpi_command = o.scpi_command := by
  induction evs with
  | nil =>
    intro o o' h
    simp only [scpiFold, Except.ok.injEq] at h
    rw [← h]
  | cons e rest ih =>
    intro o o' h
    cases e with
    | err => simp [scpiFold] at h
    | opt c a =>
      have h' : scpiFold (scpiApply o c a) rest = Except.ok o' := h
      rw [ih _ _ h', scpiApply_scpi_command]

/-- C10 amended: when an scpi invocation supplies no positional (no inline
SCPI command), the resolved configuration's `scpi_command` is not the
empty string but the compile-time default `"*IDN?"` (options.c line 47):
nothing in the loop or the tail ever writes it. -/
theorem scpi_no_positional_keeps_default_command
    (args : List String) (evs : List GEvent) (o' : option_t)
    (hev : getoptScpiEvents args = (evs, []))
    (hok : scpiFold scpiInit evs = Except.ok o') :
    parse_options ("scpi" :: args) = PRes.ok o' ∧ o'.scpi_command = "*IDN?" := by
  constructor
  · rw [parse_options_scpi, scpiBranch_eq args evs [] hev, hok]
    rfl
  · rw [scpiFold_scpi_command evs scpiInit o' hok]
    rfl

/-- C10 witness: `scpi --interactive` resolves to the interactive
configuration whose `scpi_command` is the default `"*IDN?"`. -/
theorem scpi_no_positional_keeps_default_command_witness :
    parse_options ("scpi" :: ["--interactive"]) = PRes.ok c10cfg ∧
      c10cfg.scpi_command = "*IDN?" :=
  scpi_no_positional_keeps_default_command ["--interactive"]
    [GEvent.opt 'a' none] c10cfg rfl rfl

/-- C10 counterexample: the claim says `scpi_command` is empty whenever no
inline command positional is supplied; but `scpi --interactive` resolves
with `scpi_command = "*IDN?"`, which is not the empty string. -/
theorem scpi_no_positional_not_empty_command :
    parse_options ["scpi", "--interactive"] = PRes.ok c10cfg ∧
      c10cfg.scpi_command ≠ "" := by
  decide
